import Mathlib

/-!
Verification of the `mldsp` gradient-descent optimizer (autodiff.cpp).

A shallow embedding of `src/architecture/autodiff/autodiff.cpp`.

Modelling decisions:
* `FAUSTFLOAT` is modelled as `ℚ` (exact arithmetic); the loss/gradient
  formulas of the source are algebraic and carry over unchanged.
* The rendered multi-channel output block is an oracle
  `output : Nat → Nat → ℚ` (channel index → frame index → sample value);
  per-iteration rendering is an oracle `render : Nat → Nat → Nat → ℚ`.
  The core treats the renderer as an external black box.
* The parameter registry `fLearnableParams` is an ordered association list
  `List (String × Parameter)`, populated once during `initialise` and never
  grown or shrunk afterwards.
* `fUI->setParamValue` calls are recorded as an event list `pushes`.
* The CSV file and the stdout trace are modelled as lists of structured
  records (`CSVRow`, `TraceLine`), one appended per `reportState` call.
* `framesProcessed` is a ghost counter incremented once per execution of the
  inner per-frame loop body; it does not exist in the C++ but only counts.
-/

namespace Mldsp

/-- Loss-function selector (autodiff.h is not in the sources; the two
constructors are named after the tokens `L1_NORM` / `L2_NORM` used in
autodiff.cpp). -/
inductive LossFunction where
  | L1_NORM : LossFunction
  | L2_NORM : LossFunction
deriving DecidableEq, Repr

/-- A learnable parameter: current value and most recently stored gradient. -/
structure Parameter where
  value : ℚ
  gradient : ℚ
deriving DecidableEq, Repr

/-- Modelled from the spec: `OutputChannel::GROUND_TRUTH`, declared in the
missing autodiff.h; spec section 3 fixes index 0 = ground-truth output. -/
def GROUND_TRUTH : Nat := 0

/-- Modelled from the spec: `OutputChannel::LEARNABLE`, declared in the
missing autodiff.h; spec section 3 fixes index 1 = learnable output. -/
def LEARNABLE : Nat := 1

/-- Modelled from the spec: `OutputChannel::DIFFERENTIATED`, declared in the
missing autodiff.h; spec section 3 fixes indices [2, 2+N) = derivatives. -/
def DIFFERENTIATED : Nat := 2

/-- Model of `mldsp::computeLoss`: `delta = learnable - groundTruth`; L1 gives
`fabsf(delta)`, L2 gives `powf(delta, 2)`. Returns the value stored into
`fLoss` (the method's only effect). -/
def computeLoss (lf : LossFunction) (output : Nat → Nat → ℚ) (frame : Nat) : ℚ :=
  let delta := output LEARNABLE frame - output GROUND_TRUTH frame
  match lf with
  | .L1_NORM => |delta|
  | .L2_NORM => delta ^ 2

/-- The loop body of `mldsp::computeGradient`: walks the registry with the
channel counter `k` (`auto k{0}; ... ++k`), storing into each parameter's
`gradient` field the value prescribed by the selected loss function, reading
the raw derivative from channel `DIFFERENTIATED + k`. -/
def computeGradientAux (lf : LossFunction) (output : Nat → Nat → ℚ)
    (frame : Nat) (delta : ℚ) (k : Nat) :
    List (String × Parameter) → List (String × Parameter)
  | [] => []
  | p :: rest =>
    (p.1,
      { p.2 with
        gradient :=
          match lf with
          | .L1_NORM =>
            if delta = 0 then 0
            else output (DIFFERENTIATED + k) frame * delta / |delta|
          | .L2_NORM => 2 * output (DIFFERENTIATED + k) frame * delta }) ::
      computeGradientAux lf output frame delta (k + 1) rest

/-- Model of `mldsp::computeGradient`: recomputes `delta` for the frame and updates
every registered parameter's stored gradient. -/
def computeGradient (lf : LossFunction) (output : Nat → Nat → ℚ)
    (frame : Nat) (params : List (String × Parameter)) :
    List (String × Parameter) :=
  let delta := output LEARNABLE frame - output GROUND_TRUTH frame
  computeGradientAux lf output frame delta 0 params

/-- The spec's gradient formula (section 4.2), stated independently of the
loop so that theorems can compare `computeGradient` against it. -/
def gradFormula (lf : LossFunction) (delta d : ℚ) : ℚ :=
  match lf with
  | .L1_NORM => if delta = 0 then 0 else d * delta / |delta|
  | .L2_NORM => 2 * d * delta

/-- One CSV data row: `iteration,loss` then a `(gradient, value)` pair per
registered parameter. -/
structure CSVRow where
  iteration : Nat
  loss : ℚ
  pairs : List (ℚ × ℚ)
deriving DecidableEq, Repr

/-- Per-parameter block of a stdout trace line: shortname, raw derivative
(`ds/dp`), gradient and value. -/
structure TraceParam where
  shortname : String
  deriv : ℚ
  gradient : ℚ
  value : ℚ
deriving DecidableEq, Repr

/-- One stdout trace line: iteration, both signal values, loss, and the
per-parameter blocks (printed only in the high-loss branch of
`reportState`). -/
structure TraceLine where
  iteration : Nat
  sigGT : ℚ
  sigLearn : ℚ
  loss : ℚ
  paramData : List TraceParam
deriving DecidableEq, Repr

/-- The mutable state of the `mldsp` object during `doGradientDescent`,
extended with the emitted output streams and the ghost frame counter. -/
structure OptState where
  fLearnableParams : List (String × Parameter)
  fLoss : ℚ
  lowLossCount : Nat
  framesProcessed : Nat
  csvRows : List CSVRow
  traceLines : List TraceLine
  pushes : List (String × ℚ)
deriving DecidableEq, Repr

/-- The constants of the `mldsp` object: loss selector, learning rate
`kAlpha`, sensitivity `kEpsilon`, iteration budget `kNumIterations`; the
`shortname` field models `fUI->getParamShortname` (external UI reflection). -/
structure MLDSP where
  kLossFunction : LossFunction
  kAlpha : ℚ
  kEpsilon : ℚ
  kNumIterations : Nat
  shortname : Nat → String

/-- The per-parameter stdout block of `mldsp::reportState`'s high-loss
branch, walking the registry with counter `k`. -/
def reportTraceParams (m : MLDSP) (output : Nat → Nat → ℚ) (frame : Nat)
    (k : Nat) : List (String × Parameter) → List TraceParam
  | [] => []
  | p :: rest =>
    ⟨m.shortname k, output (DIFFERENTIATED + k) frame, p.2.gradient, p.2.value⟩ ::
      reportTraceParams m output frame (k + 1) rest

/-- Model of `mldsp::reportState`: appends one CSV row (`iteration`, `fLoss`, and a
`(gradient, value)` pair per parameter — written by both branches, since the
`,,` placeholder in the low-loss branch is commented out) and one stdout
trace line (whose per-parameter blocks appear only when `fLoss > kEpsilon`). -/
def reportState (m : MLDSP) (i : Nat) (output : Nat → Nat → ℚ) (frame : Nat)
    (s : OptState) : OptState :=
  let row : CSVRow :=
    ⟨i, s.fLoss, s.fLearnableParams.map fun p => (p.2.gradient, p.2.value)⟩
  let tl : TraceLine :=
    ⟨i, output GROUND_TRUTH frame, output LEARNABLE frame, s.fLoss,
      if m.kEpsilon < s.fLoss then
        reportTraceParams m output frame 0 s.fLearnableParams
      else []⟩
  { s with
    csvRows := s.csvRows ++ [row]
    traceLines := s.traceLines ++ [tl] }

/-- The body of the inner frame loop of `mldsp::doGradientDescent`:
`computeLoss`; if `fLoss > kEpsilon` reset `lowLossCount`, `computeGradient`,
update every value by `-= kAlpha * gradient` and push it to the UI, else
increment `lowLossCount`; then `reportState`. (The `return` on
`lowLossCount > 20` is handled by `runFrames`.) -/
def frameBody (m : MLDSP) (output : Nat → Nat → ℚ) (i frame : Nat)
    (s : OptState) : OptState :=
  let s1 := { s with fLoss := computeLoss m.kLossFunction output frame }
  let s2 :=
    if m.kEpsilon < s1.fLoss then
      let grads := computeGradient m.kLossFunction output frame s1.fLearnableParams
      let updated := grads.map fun p =>
        (p.1, { p.2 with value := p.2.value - m.kAlpha * p.2.gradient })
      { s1 with
        lowLossCount := 0
        fLearnableParams := updated
        pushes := s1.pushes ++ updated.map fun p => (p.1, p.2.value) }
    else
      { s1 with lowLossCount := s1.lowLossCount + 1 }
  reportState m i output frame
    { s2 with framesProcessed := s2.framesProcessed + 1 }

/-- The inner frame loop (`for frame = 0; frame < bufferSize; ...`); the
returned flag is `true` when the `lowLossCount > 20` early `return` fired,
ending `doGradientDescent` entirely. -/
def runFrames (m : MLDSP) (output : Nat → Nat → ℚ) (i : Nat)
    (frames : List Nat) (s : OptState) : OptState × Bool :=
  match frames with
  | [] => (s, false)
  | frame :: rest =>
    let s1 := frameBody m output i frame s
    if 20 < s1.lowLossCount then (s1, true)
    else runFrames m output i rest s1

/-- The outer iteration loop (`for i = 1; i <= kNumIterations; ++i`); each
pass renders one block (`render i`) and runs the frame loop over it; an
early return from the frame loop ends the whole loop. -/
def runIterations (m : MLDSP) (render : Nat → Nat → Nat → ℚ)
    (bufferSize : Nat) (iters : List Nat) (s : OptState) : OptState :=
  match iters with
  | [] => s
  | i :: rest =>
    let r := runFrames m (render i) i (List.range bufferSize) s
    if r.2 then r.1 else runIterations m render bufferSize rest r.1

/-- The state after `mldsp::initialise`: registry populated from the UI's
enumeration (value = `fUI->getParamValue(address)`, gradient = `0.f`),
`lowLossCount` not yet live, `fLoss` defaulted to 0, empty output streams. -/
def initialState (addrs : List String) (vals : String → ℚ) : OptState :=
  ⟨addrs.map fun a => (a, ⟨vals a, 0⟩), 0, 0, 0, [], [], []⟩

/-- Model of `mldsp::doGradientDescent`, with `auto lowLossCount{0}` and iteration
numbers `1 .. kNumIterations`. -/
def doGradientDescent (m : MLDSP) (render : Nat → Nat → Nat → ℚ)
    (bufferSize : Nat) (s : OptState) : OptState :=
  runIterations m render bufferSize
    ((List.range m.kNumIterations).map (· + 1)) s

/-- The label used in the CSV header for a parameter address:
`address.substr(address.find_last_of("/") + 1)`. -/
def paramLabel (address : String) : String :=
  (address.splitOn "/").getLastD address

/-- The CSV header written by `mldsp::initialise`: `iteration,loss` then
`,gradient_<label>,<label>` per registered parameter in registry order;
its entries are the comma-separated column names. -/
def csvHeader (params : List (String × Parameter)) : List String :=
  ["iteration", "loss"] ++
    params.flatMap fun p => ["gradient_" ++ paramLabel p.1, paramLabel p.1]

/-- The loss-function CLI selection in `main`: `lf` starts as `L2_NORM`;
`strcmp(token, "l1") == 0` selects L1, `strcmp(token, "l2") == 0` selects
L2, anything else leaves the default. An absent option yields token `""`
(the default of `lopts1`). -/
def parseLossFunction (token : String) : LossFunction :=
  if token = "l1" then .L1_NORM
  else if token = "l2" then .L2_NORM
  else .L2_NORM

/-- The flattened sequence of (iteration, frame) pairs the loop would visit
with an unlimited patience, in processing order. -/
def frameStream (numIterations bufferSize : Nat) : List (Nat × Nat) :=
  ((List.range numIterations).map (· + 1)).flatMap fun i =>
    (List.range bufferSize).map fun f => (i, f)




lemma computeGradientAux_get? (lf : LossFunction) (output : Nat → Nat → ℚ)
    (frame : Nat) (delta : ℚ) :
    ∀ (l : List (String × Parameter)) (k0 n : Nat) (a : String) (p : Parameter),
      l.get? n = some (a, p) →
      (computeGradientAux lf output frame delta k0 l).get? n =
        some (a, { p with
          gradient := gradFormula lf delta
            (output (DIFFERENTIATED + (k0 + n)) frame) }) := by
  intro l
  induction l with
  | nil => intro k0 n a p h; simp at h
  | cons q rest ih =>
    intro k0 n a p h
    cases n with
    | zero =>
      simp at h
      subst h
      cases lf <;> simp [computeGradientAux, gradFormula]
    | succ n =>
      have h' : rest.get? n = some (a, p) := by simpa using h
      have e : k0 + 1 + n = k0 + (n + 1) := by omega
      have := ih (k0 + 1) n a p h'
      rw [e] at this
      simpa [computeGradientAux] using this

lemma computeGradient_get? (lf : LossFunction) (output : Nat → Nat → ℚ)
    (frame : Nat) (params : List (String × Parameter)) (k : Nat)
    (a : String) (p : Parameter) (h : params.get? k = some (a, p)) :
    (computeGradient lf output frame params).get? k =
      some (a, { p with
        gradient := gradFormula lf
          (output LEARNABLE frame - output GROUND_TRUTH frame)
          (output (DIFFERENTIATED + k) frame) }) := by
  have := computeGradientAux_get? lf output frame
    (output LEARNABLE frame - output GROUND_TRUTH frame) params 0 k a p h
  simpa [computeGradient] using this



/-- The quantity `delta` as computed per frame in `computeLoss` and `computeGradient`:
learnable output minus ground-truth output. -/
def deltaOf (output : Nat → Nat → ℚ) (frame : Nat) : ℚ :=
  output LEARNABLE frame - output GROUND_TRUTH frame

lemma div_abs_sign (d delta : ℚ) (h : delta ≠ 0) :
    d * delta / |delta| = d * (if 0 < delta then 1 else -1) := by
  rcases h.lt_or_lt with hlt | hgt
  · rw [abs_of_neg hlt, if_neg (not_lt.mpr hlt.le), div_neg, mul_div_assoc,
      div_self h]
    ring
  · rw [abs_of_pos hgt, if_pos hgt, mul_div_assoc, div_self h]

/-- The high-loss branch of the frame body, written out. -/
lemma frameBody_high_eq (m : MLDSP) (output : Nat → Nat → ℚ) (i frame : Nat)
    (s : OptState)
    (hgt : m.kEpsilon < computeLoss m.kLossFunction output frame) :
    frameBody m output i frame s =
      reportState m i output frame
        { s with
          fLoss := computeLoss m.kLossFunction output frame
          lowLossCount := 0
          fLearnableParams :=
            (computeGradient m.kLossFunction output frame s.fLearnableParams).map
              fun p => (p.1, { p.2 with value := p.2.value - m.kAlpha * p.2.gradient })
          pushes := s.pushes ++
            ((computeGradient m.kLossFunction output frame s.fLearnableParams).map
              fun p => (p.1, { p.2 with value := p.2.value - m.kAlpha * p.2.gradient })).map
              (fun p => (p.1, p.2.value))
          framesProcessed := s.framesProcessed + 1 } := by
  simp [frameBody, hgt]

/-- The low-loss branch of the frame body, written out. -/
lemma frameBody_low_eq (m : MLDSP) (output : Nat → Nat → ℚ) (i frame : Nat)
    (s : OptState)
    (hle : computeLoss m.kLossFunction output frame ≤ m.kEpsilon) :
    frameBody m output i frame s =
      reportState m i output frame
        { s with
          fLoss := computeLoss m.kLossFunction output frame
          lowLossCount := s.lowLossCount + 1
          framesProcessed := s.framesProcessed + 1 } := by
  simp [frameBody, not_lt.mpr hle]

/-- Concrete scenario output block of spec section 8: ground truth 0.5 on
channel 0, learnable 1.0 on channel 1, derivative 1.0 on channel 2. -/
def outScenario : Nat → Nat → ℚ := fun c _ => if c = 0 then 1 / 2 else 1

/-- All-zero output block: every loss is 0. -/
def outZero : Nat → Nat → ℚ := fun _ _ => 0

/-- All-zero renderer. -/
def renderZero : Nat → Nat → Nat → ℚ := fun _ _ _ => 0

/-- Concrete optimizer constants: L2 loss, `alpha = 0.1`, `epsilon = 0.01`,
2 iterations. -/
def mScenario : MLDSP := ⟨.L2_NORM, 1 / 10, 1 / 100, 2, fun _ => "p"⟩

/-- Concrete initial state: one parameter at value 0.3. -/
def sScenario : OptState := initialState ["/p"] fun _ => 3 / 10

/-- C5: for every frame, the loss evaluator returns `|delta|` under L1 and
`delta^2` under L2 with `delta = observed - target` (learnable minus
ground truth), and the result is non-negative for either loss function. -/
theorem C5_loss_evaluator (lf : LossFunction) (output : Nat → Nat → ℚ)
    (frame : Nat) :
    deltaOf output frame = output LEARNABLE frame - output GROUND_TRUTH frame ∧
    computeLoss .L1_NORM output frame = |deltaOf output frame| ∧
    computeLoss .L2_NORM output frame = (deltaOf output frame) ^ 2 ∧
    0 ≤ computeLoss lf output frame := by
  refine ⟨rfl, rfl, rfl, ?_⟩
  cases lf
  · exact abs_nonneg _
  · exact sq_nonneg _

/-- C9: the loss-function selector is L2 unless the option token is exactly
`"l1"`; the token `"l2"` selects L2 explicitly, and any other token
(including the empty token of an absent option) silently retains L2. -/
theorem C9_lossfunction_selection :
    parseLossFunction "l1" = .L1_NORM ∧
    parseLossFunction "l2" = .L2_NORM ∧
    parseLossFunction "" = .L2_NORM ∧
    ∀ token : String, token ≠ "l1" → parseLossFunction token = .L2_NORM := by
  refine ⟨rfl, rfl, rfl, fun token h => ?_⟩
  unfold parseLossFunction
  rw [if_neg h]
  split <;> rfl

/-- Witness for C9 at the concrete unrecognized token `"huber"`. -/
theorem C9_lossfunction_selection_witness :
    parseLossFunction "huber" = .L2_NORM :=
  C9_lossfunction_selection.2.2.2 "huber" (by decide)

/-- C3: under L1 loss, the k-th registered parameter's gradient is exactly 0
when `delta = 0` (the registry entry keeps its address and value), and
`d_k * delta / |delta| = d_k * sign delta` when `delta` is nonzero. -/
theorem C3_l1_gradient (output : Nat → Nat → ℚ) (frame : Nat)
    (params : List (String × Parameter)) (k : Nat) (a : String) (p : Parameter)
    (h : params.get? k = some (a, p)) :
    (deltaOf output frame = 0 →
      (computeGradient .L1_NORM output frame params).get? k =
        some (a, { p with gradient := 0 })) ∧
    (deltaOf output frame ≠ 0 →
      (computeGradient .L1_NORM output frame params).get? k =
        some (a, { p with
          gradient := output (DIFFERENTIATED + k) frame * deltaOf output frame /
            |deltaOf output frame| }) ∧
      output (DIFFERENTIATED + k) frame * deltaOf output frame /
          |deltaOf output frame| =
        output (DIFFERENTIATED + k) frame *
          (if 0 < deltaOf output frame then 1 else -1)) := by
  have hg := computeGradient_get? .L1_NORM output frame params k a p h
  constructor
  · intro h0
    rw [hg]
    simp [gradFormula, deltaOf] at h0 ⊢
    simp [h0]
  · intro h0
    refine ⟨?_, div_abs_sign _ _ h0⟩
    rw [hg]
    simp only [gradFormula, deltaOf] at h0 ⊢
    rw [if_neg h0]

/-- Witness for C3: one registered parameter; with the all-zero block
`delta = 0` gives gradient exactly 0; with the scenario block
`delta = 1/2 ≠ 0` gives gradient `1 * (1/2) / |1/2| = 1`. -/
theorem C3_l1_gradient_witness :
    (computeGradient .L1_NORM outZero 0 [("/p", ⟨3 / 10, 5⟩)]).get? 0 =
      some ("/p", ⟨3 / 10, 0⟩) ∧
    (computeGradient .L1_NORM outScenario 0 [("/p", ⟨3 / 10, 5⟩)]).get? 0 =
      some ("/p", ⟨3 / 10, 1⟩) := by
  constructor
  · exact (C3_l1_gradient outZero 0 [("/p", ⟨3 / 10, 5⟩)] 0 "/p" ⟨3 / 10, 5⟩
      rfl).1 (by simp [deltaOf, outZero])
  · rw [((C3_l1_gradient outScenario 0 [("/p", ⟨3 / 10, 5⟩)] 0 "/p" ⟨3 / 10, 5⟩
      rfl).2 (by norm_num [deltaOf, outScenario, LEARNABLE, GROUND_TRUTH])).1]
    have habs : |deltaOf outScenario 0| = deltaOf outScenario 0 :=
      abs_of_pos (by norm_num [deltaOf, outScenario, LEARNABLE, GROUND_TRUTH])
    rw [habs]
    norm_num [deltaOf, outScenario, LEARNABLE, GROUND_TRUTH, DIFFERENTIATED]

/-- C6: the k-th registered parameter's gradient is computed from the raw
derivative read at Output Frame channel index `2 + k`; consequently two
blocks agreeing on channels 0, 1 and `2 + k` at the frame yield the same
k-th registry entry. -/
theorem C6_channel_index (lf : LossFunction) (output output2 : Nat → Nat → ℚ)
    (frame : Nat) (params : List (String × Parameter)) (k : Nat) (a : String)
    (p : Parameter) (h : params.get? k = some (a, p))
    (h0 : output2 GROUND_TRUTH frame = output GROUND_TRUTH frame)
    (h1 : output2 LEARNABLE frame = output LEARNABLE frame)
    (hk : output2 (2 + k) frame = output (2 + k) frame) :
    (computeGradient lf output frame params).get? k =
      some (a, { p with
        gradient := gradFormula lf (deltaOf output frame)
          (output (2 + k) frame) }) ∧
    (computeGradient lf output2 frame params).get? k =
      (computeGradient lf output frame params).get? k := by
  have e1 := computeGradient_get? lf output frame params k a p h
  have e2 := computeGradient_get? lf output2 frame params k a p h
  constructor
  · rw [e1]
    rfl
  · rw [e1, e2]
    simp only [deltaOf, DIFFERENTIATED] at *
    rw [h0, h1, hk]

/-- Witness for C6 at a concrete registry and two concrete blocks agreeing
on channels 0, 1, 2. -/
theorem C6_channel_index_witness :
    (computeGradient .L2_NORM outScenario 0 [("/p", ⟨3 / 10, 5⟩)]).get? 0 =
      some ("/p", ⟨3 / 10, 1⟩) ∧
    (computeGradient .L2_NORM (fun c f => if c ≤ 2 then outScenario c f else 99)
        0 [("/p", ⟨3 / 10, 5⟩)]).get? 0 =
      (computeGradient .L2_NORM outScenario 0 [("/p", ⟨3 / 10, 5⟩)]).get? 0 := by
  have h := C6_channel_index .L2_NORM outScenario
    (fun c f => if c ≤ 2 then outScenario c f else 99) 0
    [("/p", ⟨3 / 10, 5⟩)] 0 "/p" ⟨3 / 10, 5⟩ rfl (by norm_num [GROUND_TRUTH])
    (by norm_num [LEARNABLE]) (by norm_num)
  refine ⟨?_, h.2⟩
  rw [h.1]
  norm_num [gradFormula, deltaOf, outScenario, LEARNABLE, GROUND_TRUTH]

/-- On a high-loss frame, the k-th registry entry after the frame body keeps
its address, stores the freshly computed gradient, and has its value
decremented by `kAlpha` times that gradient. -/
lemma frameBody_update_get? (m : MLDSP) (output : Nat → Nat → ℚ)
    (i frame : Nat) (s : OptState)
    (hgt : m.kEpsilon < computeLoss m.kLossFunction output frame)
    (k : Nat) (a : String) (p : Parameter)
    (hs : s.fLearnableParams.get? k = some (a, p)) :
    (frameBody m output i frame s).fLearnableParams.get? k =
      some (a,
        ⟨p.value - m.kAlpha * gradFormula m.kLossFunction
            (deltaOf output frame) (output (DIFFERENTIATED + k) frame),
          gradFormula m.kLossFunction (deltaOf output frame)
            (output (DIFFERENTIATED + k) frame)⟩) := by
  rw [frameBody_high_eq m output i frame s hgt]
  have hg := computeGradient_get? m.kLossFunction output frame
    s.fLearnableParams k a p hs
  simp only [reportState]
  rw [List.get?_map, hg]
  simp [deltaOf]

/-- The stable-frame counter after one frame body: reset to 0 on a
high-loss frame, incremented otherwise. -/
lemma frameBody_lowLossCount (m : MLDSP) (output : Nat → Nat → ℚ)
    (i frame : Nat) (s : OptState) :
    (frameBody m output i frame s).lowLossCount =
      if m.kEpsilon < computeLoss m.kLossFunction output frame then 0
      else s.lowLossCount + 1 := by
  by_cases hgt : m.kEpsilon < computeLoss m.kLossFunction output frame
  · rw [frameBody_high_eq m output i frame s hgt, if_pos hgt]
    simp [reportState]
  · rw [frameBody_low_eq m output i frame s (not_lt.mp hgt), if_neg hgt]
    simp [reportState]

/-- C2: on a frame with loss above `kEpsilon` the stable-frame counter is
reset to 0, every parameter's gradient is recomputed, every value becomes
`value - kAlpha * gradient`, and the updated values are pushed to the UI;
on a frame with loss at most `kEpsilon` parameters (values and stored
gradients) and pushes are untouched and the counter increments. -/
theorem C2_frame_effect (m : MLDSP) (output : Nat → Nat → ℚ) (i frame : Nat)
    (s : OptState) :
    (m.kEpsilon < computeLoss m.kLossFunction output frame →
      (frameBody m output i frame s).lowLossCount = 0 ∧
      (∀ k a p, s.fLearnableParams.get? k = some (a, p) →
        (frameBody m output i frame s).fLearnableParams.get? k =
          some (a,
            ⟨p.value - m.kAlpha * gradFormula m.kLossFunction
                (deltaOf output frame) (output (DIFFERENTIATED + k) frame),
              gradFormula m.kLossFunction (deltaOf output frame)
                (output (DIFFERENTIATED + k) frame)⟩)) ∧
      (frameBody m output i frame s).pushes =
        s.pushes ++ (frameBody m output i frame s).fLearnableParams.map
          fun p => (p.1, p.2.value)) ∧
    (computeLoss m.kLossFunction output frame ≤ m.kEpsilon →
      (frameBody m output i frame s).fLearnableParams = s.fLearnableParams ∧
      (frameBody m output i frame s).lowLossCount = s.lowLossCount + 1 ∧
      (frameBody m output i frame s).pushes = s.pushes) := by
  constructor
  · intro hgt
    refine ⟨by rw [frameBody_lowLossCount, if_pos hgt],
      fun k a p hk => frameBody_update_get? m output i frame s hgt k a p hk, ?_⟩
    rw [frameBody_high_eq m output i frame s hgt]
    simp [reportState]
  · intro hle
    rw [frameBody_low_eq m output i frame s hle]
    exact ⟨by simp [reportState], by simp [reportState], by simp [reportState]⟩

/-- Witness for C2 on the concrete scenario state: a high-loss frame resets
the counter and pushes the updated value `0.2`; a zero-loss frame leaves
the registry untouched. -/
theorem C2_frame_effect_witness :
    (frameBody mScenario outScenario 1 0 sScenario).lowLossCount = 0 ∧
    (frameBody mScenario outZero 1 0 sScenario).fLearnableParams =
      sScenario.fLearnableParams := by
  constructor
  · exact ((C2_frame_effect mScenario outScenario 1 0 sScenario).1
      (by norm_num [computeLoss, mScenario, outScenario, LEARNABLE,
        GROUND_TRUTH])).1
  · exact ((C2_frame_effect mScenario outZero 1 0 sScenario).2
      (by norm_num [computeLoss, mScenario, outZero])).1

/-- C4: under L2 loss the k-th gradient is `2 * d_k * delta`, the subsequent
update subtracts `kAlpha` times that gradient from the value, and the spec's
concrete scenario (one parameter, `alpha = 0.1`, observed 1, target 0.5,
`d_0 = 1`, prior value 0.3) yields loss `0.25`, gradient `1`, new value
`0.2`. -/
theorem C4_l2_gradient (output : Nat → Nat → ℚ) (frame : Nat)
    (params : List (String × Parameter)) (m : MLDSP) (i : Nat) (s : OptState)
    (k : Nat) (a : String) (p : Parameter)
    (h : params.get? k = some (a, p))
    (hm : m.kLossFunction = .L2_NORM)
    (hgt : m.kEpsilon < computeLoss m.kLossFunction output frame)
    (hs : s.fLearnableParams.get? k = some (a, p)) :
    ((computeGradient .L2_NORM output frame params).get? k =
      some (a, { p with
        gradient := 2 * output (DIFFERENTIATED + k) frame *
          deltaOf output frame }) ∧
    (frameBody m output i frame s).fLearnableParams.get? k =
      some (a,
        ⟨p.value - m.kAlpha *
            (2 * output (DIFFERENTIATED + k) frame * deltaOf output frame),
          2 * output (DIFFERENTIATED + k) frame * deltaOf output frame⟩)) ∧
    ((frameBody mScenario outScenario 1 0 sScenario).fLoss = 1 / 4 ∧
      (frameBody mScenario outScenario 1 0 sScenario).fLearnableParams =
        [("/p", ⟨1 / 5, 1⟩)] ∧
      (frameBody mScenario outScenario 1 0 sScenario).pushes =
        [("/p", 1 / 5)]) := by
  refine ⟨⟨?_, ?_⟩, ?_, ?_, ?_⟩
  · have := computeGradient_get? .L2_NORM output frame params k a p h
    rw [this]
    rfl
  · have hupd := frameBody_update_get? m output i frame s hgt k a p hs
    rw [hupd, hm]
    rfl
  · have hloss : computeLoss mScenario.kLossFunction outScenario 0 = 1 / 4 := by
      norm_num [computeLoss, mScenario, outScenario, LEARNABLE, GROUND_TRUTH]
    rw [frameBody_high_eq mScenario outScenario 1 0 sScenario
      (by rw [hloss]; norm_num [mScenario])]
    simp [reportState, hloss]
  · rw [frameBody_high_eq mScenario outScenario 1 0 sScenario
      (by norm_num [computeLoss, mScenario, outScenario, LEARNABLE,
        GROUND_TRUTH])]
    norm_num [reportState, computeGradient, computeGradientAux, sScenario,
      initialState, mScenario, outScenario, LEARNABLE, GROUND_TRUTH,
      DIFFERENTIATED]
  · rw [frameBody_high_eq mScenario outScenario 1 0 sScenario
      (by norm_num [computeLoss, mScenario, outScenario, LEARNABLE,
        GROUND_TRUTH])]
    norm_num [reportState, computeGradient, computeGradientAux, sScenario,
      initialState, mScenario, outScenario, LEARNABLE, GROUND_TRUTH,
      DIFFERENTIATED]

/-- Witness for C4 at the spec's concrete scenario. -/
theorem C4_l2_gradient_witness :
    (frameBody mScenario outScenario 1 0 sScenario).fLoss = 1 / 4 ∧
    (frameBody mScenario outScenario 1 0 sScenario).fLearnableParams =
      [("/p", ⟨1 / 5, 1⟩)] ∧
    (frameBody mScenario outScenario 1 0 sScenario).pushes = [("/p", 1 / 5)] :=
  (C4_l2_gradient outScenario 0 sScenario.fLearnableParams mScenario 1
    sScenario 0 "/p" ⟨3 / 10, 0⟩ rfl rfl
    (by norm_num [computeLoss, mScenario, outScenario, LEARNABLE, GROUND_TRUTH])
    rfl).2

lemma runFrames_nil (m : MLDSP) (output : Nat → Nat → ℚ) (i : Nat)
    (s : OptState) : runFrames m output i [] s = (s, false) := rfl

lemma runFrames_cons (m : MLDSP) (output : Nat → Nat → ℚ) (i f : Nat)
    (rest : List Nat) (s : OptState) :
    runFrames m output i (f :: rest) s =
      if 20 < (frameBody m output i f s).lowLossCount
        then (frameBody m output i f s, true)
        else runFrames m output i rest (frameBody m output i f s) := rfl

lemma runIterations_nil (m : MLDSP) (render : Nat → Nat → Nat → ℚ)
    (bufferSize : Nat) (s : OptState) :
    runIterations m render bufferSize [] s = s := rfl

lemma runIterations_cons (m : MLDSP) (render : Nat → Nat → Nat → ℚ)
    (bufferSize i : Nat) (rest : List Nat) (s : OptState) :
    runIterations m render bufferSize (i :: rest) s =
      if (runFrames m (render i) i (List.range bufferSize) s).2
        then (runFrames m (render i) i (List.range bufferSize) s).1
        else runIterations m render bufferSize rest
          (runFrames m (render i) i (List.range bufferSize) s).1 := rfl

/-- Bookkeeping of one frame body: the ghost frame counter and the CSV row
count grow by one, the registry size is unchanged. -/
lemma frameBody_counts (m : MLDSP) (output : Nat → Nat → ℚ) (i frame : Nat)
    (s : OptState) :
    (frameBody m output i frame s).framesProcessed = s.framesProcessed + 1 ∧
    (frameBody m output i frame s).csvRows.length = s.csvRows.length + 1 := by
  by_cases hgt : m.kEpsilon < computeLoss m.kLossFunction output frame
  · rw [frameBody_high_eq m output i frame s hgt]
    simp [reportState]
  · rw [frameBody_low_eq m output i frame s (not_lt.mp hgt)]
    simp [reportState]

/-- The frame loop on a run of sub-threshold frames: if at least
`21 - lowLossCount` frames remain it fires the early return exactly when
the counter reaches 21, having processed exactly that many frames;
otherwise it consumes the whole block, accumulating the counter. -/
lemma runFrames_low (m : MLDSP) (output : Nat → Nat → ℚ) (i : Nat) :
    ∀ (frames : List Nat) (s : OptState),
      s.lowLossCount ≤ 20 →
      (∀ f ∈ frames.take (21 - s.lowLossCount),
        computeLoss m.kLossFunction output f ≤ m.kEpsilon) →
      if 21 - s.lowLossCount ≤ frames.length then
        (runFrames m output i frames s).2 = true ∧
        (runFrames m output i frames s).1.lowLossCount = 21 ∧
        (runFrames m output i frames s).1.framesProcessed =
          s.framesProcessed + (21 - s.lowLossCount) ∧
        (runFrames m output i frames s).1.csvRows.length =
          s.csvRows.length + (21 - s.lowLossCount)
      else
        (runFrames m output i frames s).2 = false ∧
        (runFrames m output i frames s).1.lowLossCount =
          s.lowLossCount + frames.length ∧
        (runFrames m output i frames s).1.framesProcessed =
          s.framesProcessed + frames.length ∧
        (runFrames m output i frames s).1.csvRows.length =
          s.csvRows.length + frames.length := by
  intro frames
  induction frames with
  | nil =>
    intro s hc _
    rw [if_neg (by simp; omega)]
    simp [runFrames_nil]
  | cons f rest ih =>
    intro s hc hlow
    have htk : (f :: rest).take (21 - s.lowLossCount) =
        f :: rest.take (20 - s.lowLossCount) := by
      have : 21 - s.lowLossCount = (20 - s.lowLossCount) + 1 := by omega
      rw [this, List.take_succ_cons]
    have hf : computeLoss m.kLossFunction output f ≤ m.kEpsilon := by
      apply hlow
      rw [htk]
      exact List.mem_cons_self f _
    have hcnt : (frameBody m output i f s).lowLossCount =
        s.lowLossCount + 1 := by
      rw [frameBody_lowLossCount, if_neg (not_lt.mpr hf)]
    have hfp := frameBody_counts m output i f s
    by_cases h20 : s.lowLossCount = 20
    · rw [if_pos (by simp [List.length_cons]; omega),
        runFrames_cons, if_pos (by omega)]
      refine ⟨rfl, ?_, ?_, ?_⟩
      · show (frameBody m output i f s).lowLossCount = 21
        omega
      · show (frameBody m output i f s).framesProcessed =
          s.framesProcessed + (21 - s.lowLossCount)
        omega
      · show (frameBody m output i f s).csvRows.length =
          s.csvRows.length + (21 - s.lowLossCount)
        omega
    · have hinner : ¬ 20 < (frameBody m output i f s).lowLossCount := by omega
      have hc' : (frameBody m output i f s).lowLossCount ≤ 20 := by omega
      have hlow' : ∀ g ∈ rest.take
          (21 - (frameBody m output i f s).lowLossCount),
          computeLoss m.kLossFunction output g ≤ m.kEpsilon := by
        intro g hg
        apply hlow
        rw [htk]
        apply List.mem_cons_of_mem
        have he : 21 - (frameBody m output i f s).lowLossCount =
            20 - s.lowLossCount := by omega
        rwa [he] at hg
      have ihr := ih (frameBody m output i f s) hc' hlow'
      rw [runFrames_cons, if_neg hinner]
      by_cases hlen : 21 - s.lowLossCount ≤ rest.length + 1
      · rw [if_pos (by simp [List.length_cons]; omega)]
        rw [if_pos (by omega)] at ihr
        obtain ⟨ihr1, ihr2, ihr3, ihr4⟩ := ihr
        exact ⟨ihr1, ihr2, by omega, by omega⟩
      · rw [if_neg (by simp [List.length_cons]; omega)]
        rw [if_neg (by omega)] at ihr
        obtain ⟨ihr1, ihr2, ihr3, ihr4⟩ := ihr
        refine ⟨ihr1, ?_, ?_, ?_⟩ <;> simp only [List.length_cons] <;> omega

/-- The flattened (iteration, frame) pairs of a list of blocks. -/
def blockStream (iters : List Nat) (bufferSize : Nat) : List (Nat × Nat) :=
  iters.flatMap fun i => (List.range bufferSize).map fun f => (i, f)

lemma frameStream_eq_blockStream (numIterations bufferSize : Nat) :
    frameStream numIterations bufferSize =
      blockStream ((List.range numIterations).map (· + 1)) bufferSize := rfl

/-- The iteration loop on a run of sub-threshold frames: with enough frame
budget left it ends with the counter at 21 having processed exactly
`21 - lowLossCount` further frames — crossing block boundaries without
resetting the counter; with too small a budget it exhausts all blocks. -/
lemma runIterations_low (m : MLDSP) (render : Nat → Nat → Nat → ℚ)
    (bufferSize : Nat) :
    ∀ (iters : List Nat) (s : OptState),
      s.lowLossCount ≤ 20 →
      (∀ p ∈ (blockStream iters bufferSize).take (21 - s.lowLossCount),
        computeLoss m.kLossFunction (render p.1) p.2 ≤ m.kEpsilon) →
      if 21 - s.lowLossCount ≤ iters.length * bufferSize then
        (runIterations m render bufferSize iters s).lowLossCount = 21 ∧
        (runIterations m render bufferSize iters s).framesProcessed =
          s.framesProcessed + (21 - s.lowLossCount) ∧
        (runIterations m render bufferSize iters s).csvRows.length =
          s.csvRows.length + (21 - s.lowLossCount)
      else
        (runIterations m render bufferSize iters s).lowLossCount =
          s.lowLossCount + iters.length * bufferSize ∧
        (runIterations m render bufferSize iters s).framesProcessed =
          s.framesProcessed + iters.length * bufferSize ∧
        (runIterations m render bufferSize iters s).csvRows.length =
          s.csvRows.length + iters.length * bufferSize := by
  intro iters
  induction iters with
  | nil =>
    intro s hc _
    rw [if_neg (by simp; omega)]
    simp [runIterations_nil]
  | cons i rest ih =>
    intro s hc hlow
    have hsplit : blockStream (i :: rest) bufferSize =
        ((List.range bufferSize).map fun f => (i, f)) ++
          blockStream rest bufferSize := by
      simp [blockStream]
    have hblock : ∀ f ∈ (List.range bufferSize).take (21 - s.lowLossCount),
        computeLoss m.kLossFunction (render i) f ≤ m.kEpsilon := by
      intro f hf
      have : (i, f) ∈ (blockStream (i :: rest) bufferSize).take
          (21 - s.lowLossCount) := by
        rw [hsplit, List.take_append_eq_append_take]
        apply List.mem_append_left
        rw [← List.map_take]
        exact List.mem_map_of_mem _ hf
      exact hlow (i, f) this
    have hrf := runFrames_low m (render i) i (List.range bufferSize) s hc hblock
    rw [List.length_range] at hrf
    have hmul : (i :: rest).length * bufferSize =
        rest.length * bufferSize + bufferSize := by
      simp [Nat.succ_mul]
    by_cases hbs : 21 - s.lowLossCount ≤ bufferSize
    · rw [if_pos hbs] at hrf
      obtain ⟨hrf1, hrf2, hrf3, hrf4⟩ := hrf
      rw [if_pos (by rw [hmul]; omega), runIterations_cons, if_pos hrf1]
      exact ⟨hrf2, hrf3, hrf4⟩
    · rw [if_neg hbs] at hrf
      obtain ⟨hrf1, hrf2, hrf3, hrf4⟩ := hrf
      have hfalse : ¬ (runFrames m (render i) i (List.range bufferSize) s).2 =
          true := by
        rw [hrf1]
        exact Bool.false_ne_true
      have hc1 : (runFrames m (render i) i
          (List.range bufferSize) s).1.lowLossCount ≤ 20 := by omega
      have hlow1 : ∀ p ∈ (blockStream rest bufferSize).take
          (21 - (runFrames m (render i) i
            (List.range bufferSize) s).1.lowLossCount),
          computeLoss m.kLossFunction (render p.1) p.2 ≤ m.kEpsilon := by
        intro p hp
        apply hlow
        rw [hsplit, List.take_append_eq_append_take]
        apply List.mem_append_right
        have e2 : 21 - s.lowLossCount -
            ((List.range bufferSize).map fun f => (i, f)).length =
            21 - (runFrames m (render i) i
              (List.range bufferSize) s).1.lowLossCount := by
          simp only [List.length_map, List.length_range]
          omega
        rwa [e2]
      have ihr := ih (runFrames m (render i) i (List.range bufferSize) s).1
        hc1 hlow1
      rw [runIterations_cons, if_neg hfalse]
      by_cases hlen : 21 - s.lowLossCount ≤ rest.length * bufferSize + bufferSize
      · rw [if_pos (by rw [hmul]; omega)]
        rw [if_pos (by omega)] at ihr
        obtain ⟨ihr1, ihr2, ihr3⟩ := ihr
        exact ⟨ihr1, by omega, by omega⟩
      · rw [if_neg (by rw [hmul]; omega)]
        rw [if_neg (by omega)] at ihr
        obtain ⟨ihr1, ihr2, ihr3⟩ := ihr
        refine ⟨?_, ?_, ?_⟩ <;> rw [hmul] <;> omega

/-- A full run all of whose first 21 frames are sub-threshold, started from
a fresh state, converges with the counter at 21 after exactly 21 frames. -/
lemma doGradientDescent_low (m : MLDSP) (render : Nat → Nat → Nat → ℚ)
    (bufferSize : Nat) (addrs : List String) (vals : String → ℚ)
    (hbudget : 21 ≤ m.kNumIterations * bufferSize)
    (hlow : ∀ p ∈ (frameStream m.kNumIterations bufferSize).take 21,
      computeLoss m.kLossFunction (render p.1) p.2 ≤ m.kEpsilon) :
    (doGradientDescent m render bufferSize
      (initialState addrs vals)).lowLossCount = 21 ∧
    (doGradientDescent m render bufferSize
      (initialState addrs vals)).framesProcessed = 21 ∧
    (doGradientDescent m render bufferSize
      (initialState addrs vals)).csvRows.length = 21 := by
  have h0 : (initialState addrs vals).lowLossCount = 0 := rfl
  have hlow' : ∀ p ∈ (blockStream ((List.range m.kNumIterations).map (· + 1))
      bufferSize).take (21 - (initialState addrs vals).lowLossCount),
      computeLoss m.kLossFunction (render p.1) p.2 ≤ m.kEpsilon := by
    rw [h0, Nat.sub_zero, ← frameStream_eq_blockStream]
    exact hlow
  have h := runIterations_low m render bufferSize
    ((List.range m.kNumIterations).map (· + 1)) (initialState addrs vals)
    (by rw [h0]; omega) hlow'
  rw [if_pos (by simp [h0]; omega)] at h
  obtain ⟨h1, h2, h3⟩ := h
  refine ⟨?_, ?_, ?_⟩
  · simpa [doGradientDescent] using h1
  · have := h2
    rw [h0, Nat.sub_zero] at this
    simpa [doGradientDescent, initialState] using this
  · have := h3
    rw [h0, Nat.sub_zero] at this
    simpa [doGradientDescent, initialState] using this

/-- C1: if the first 21 = P+1 frames all have loss at most `kEpsilon`, the
run ends with the stable-frame counter at 21 after exactly 21 processed
frames; and the early return fires immediately, mid-block, after any frame
leaving the counter above 20, consuming none of the block's later frames. -/
theorem C1_convergence (m : MLDSP) (render : Nat → Nat → Nat → ℚ)
    (bufferSize : Nat) (addrs : List String) (vals : String → ℚ)
    (hbudget : 21 ≤ m.kNumIterations * bufferSize)
    (hlow : ∀ p ∈ (frameStream m.kNumIterations bufferSize).take 21,
      computeLoss m.kLossFunction (render p.1) p.2 ≤ m.kEpsilon) :
    ((doGradientDescent m render bufferSize
        (initialState addrs vals)).framesProcessed = 21 ∧
      (doGradientDescent m render bufferSize
        (initialState addrs vals)).lowLossCount = 21) ∧
    ∀ (output : Nat → Nat → ℚ) (j frame : Nat) (rest : List Nat)
      (t : OptState),
      20 < (frameBody m output j frame t).lowLossCount →
      runFrames m output j (frame :: rest) t =
        (frameBody m output j frame t, true) := by
  have h := doGradientDescent_low m render bufferSize addrs vals hbudget hlow
  refine ⟨⟨h.2.1, h.1⟩, fun output j frame rest t hcnt => ?_⟩
  rw [runFrames_cons, if_pos hcnt]

/-- Witness for C1: 2 iterations of 21 all-zero frames converge after the
21st frame. -/
theorem C1_convergence_witness :
    (doGradientDescent mScenario renderZero 21
      (initialState ["/p"] fun _ => (3 : ℚ) / 10)).framesProcessed = 21 ∧
    (doGradientDescent mScenario renderZero 21
      (initialState ["/p"] fun _ => (3 : ℚ) / 10)).lowLossCount = 21 :=
  (C1_convergence mScenario renderZero 21 ["/p"] (fun _ => (3 : ℚ) / 10)
    (by norm_num [mScenario])
    (fun p _ => by norm_num [computeLoss, renderZero, mScenario])).1

/-- Concrete optimizer constants for a multi-block run: 3 iterations with a
block size of 7. -/
def mC10 : MLDSP := ⟨.L2_NORM, 1 / 10, 1 / 100, 3, fun _ => "p"⟩

/-- C10: the stable-frame counter starts at 0, is reset only by a
high-loss frame and incremented by every other frame, and accumulates
across block/iteration boundaries: with a block size of at most 20 (so no
single block can reach the patience), 21 sub-threshold frames spanning
several blocks still converge after exactly 21 frames. -/
theorem C10_counter_persistence (m : MLDSP) (output : Nat → Nat → ℚ)
    (render : Nat → Nat → Nat → ℚ) (i frame bufferSize : Nat) (s : OptState)
    (addrs : List String) (vals : String → ℚ)
    (hbs : bufferSize ≤ 20)
    (hbudget : 21 ≤ m.kNumIterations * bufferSize)
    (hlow : ∀ p ∈ (frameStream m.kNumIterations bufferSize).take 21,
      computeLoss m.kLossFunction (render p.1) p.2 ≤ m.kEpsilon) :
    (initialState addrs vals).lowLossCount = 0 ∧
    ((frameBody m output i frame s).lowLossCount =
      if m.kEpsilon < computeLoss m.kLossFunction output frame then 0
      else s.lowLossCount + 1) ∧
    (doGradientDescent m render bufferSize
      (initialState addrs vals)).lowLossCount = 21 ∧
    (doGradientDescent m render bufferSize
      (initialState addrs vals)).framesProcessed = 21 := by
  have h := doGradientDescent_low m render bufferSize addrs vals hbudget hlow
  exact ⟨rfl, frameBody_lowLossCount m output i frame s, h.1, h.2.1⟩

/-- Witness for C10: 3 iterations of 7 all-zero frames converge after the
21st frame, with the counter surviving two block boundaries. -/
theorem C10_counter_persistence_witness :
    (doGradientDescent mC10 renderZero 7
      (initialState ["/p"] fun _ => (3 : ℚ) / 10)).lowLossCount = 21 ∧
    (doGradientDescent mC10 renderZero 7
      (initialState ["/p"] fun _ => (3 : ℚ) / 10)).framesProcessed = 21 := by
  have h := C10_counter_persistence mC10 outZero renderZero 1 0 7
    (initialState ["/p"] fun _ => (3 : ℚ) / 10) ["/p"] (fun _ => (3 : ℚ) / 10)
    (by norm_num) (by norm_num [mC10])
    (fun p _ => by norm_num [computeLoss, renderZero, mC10])
  exact ⟨h.2.2.1, h.2.2.2⟩

lemma computeGradientAux_length (lf : LossFunction) (output : Nat → Nat → ℚ)
    (frame : Nat) (delta : ℚ) :
    ∀ (l : List (String × Parameter)) (k0 : Nat),
      (computeGradientAux lf output frame delta k0 l).length = l.length := by
  intro l
  induction l with
  | nil => intro k0; rfl
  | cons q rest ih => intro k0; simp [computeGradientAux, ih]

lemma frameBody_params_length (m : MLDSP) (output : Nat → Nat → ℚ)
    (i frame : Nat) (s : OptState) :
    (frameBody m output i frame s).fLearnableParams.length =
      s.fLearnableParams.length := by
  by_cases hgt : m.kEpsilon < computeLoss m.kLossFunction output frame
  · rw [frameBody_high_eq m output i frame s hgt]
    simp [reportState, computeGradient, computeGradientAux_length]
  · rw [frameBody_low_eq m output i frame s (not_lt.mp hgt)]
    simp [reportState]

/-- The function `reportState` appends exactly one CSV row: the iteration, the stored
loss, and the registry's `(gradient, value)` pairs. -/
lemma reportState_csvRows (m : MLDSP) (i : Nat) (output : Nat → Nat → ℚ)
    (frame : Nat) (t : OptState) :
    (reportState m i output frame t).csvRows =
      t.csvRows ++
        [⟨i, t.fLoss, t.fLearnableParams.map fun p =>
          (p.2.gradient, p.2.value)⟩] := by
  simp [reportState]

/-- The frame body appends exactly one CSV row, whose pair list has one
`(gradient, value)` entry per registered parameter. -/
lemma frameBody_csvRows (m : MLDSP) (output : Nat → Nat → ℚ)
    (i frame : Nat) (s : OptState) :
    ∃ row : CSVRow,
      (frameBody m output i frame s).csvRows = s.csvRows ++ [row] ∧
      row.pairs.length = s.fLearnableParams.length := by
  by_cases hgt : m.kEpsilon < computeLoss m.kLossFunction output frame
  · rw [frameBody_high_eq m output i frame s hgt, reportState_csvRows]
    refine ⟨_, rfl, ?_⟩
    simp [computeGradient, computeGradientAux_length]
  · rw [frameBody_low_eq m output i frame s (not_lt.mp hgt), reportState_csvRows]
    exact ⟨_, rfl, by simp⟩

/-- The CSV bookkeeping invariant: one row per processed frame, each row
with one pair per registered parameter. -/
def csvInv (n : Nat) (s : OptState) : Prop :=
  s.csvRows.length = s.framesProcessed ∧
  s.fLearnableParams.length = n ∧
  ∀ row ∈ s.csvRows, row.pairs.length = n

lemma frameBody_csvInv (m : MLDSP) (output : Nat → Nat → ℚ)
    (i frame : Nat) (s : OptState) (n : Nat) (h : csvInv n s) :
    csvInv n (frameBody m output i frame s) := by
  obtain ⟨h1, h2, h3⟩ := h
  obtain ⟨row, hrow, hlen⟩ := frameBody_csvRows m output i frame s
  obtain ⟨hfp, hcsv⟩ := frameBody_counts m output i frame s
  refine ⟨by omega, by rw [frameBody_params_length]; exact h2, ?_⟩
  intro r hr
  rw [hrow] at hr
  rcases List.mem_append.mp hr with hr | hr
  · exact h3 r hr
  · rw [List.mem_singleton.mp hr]
    rw [hlen]
    exact h2

lemma runFrames_csvInv (m : MLDSP) (output : Nat → Nat → ℚ) (i : Nat) :
    ∀ (frames : List Nat) (s : OptState) (n : Nat), csvInv n s →
      csvInv n (runFrames m output i frames s).1 ∧
      (runFrames m output i frames s).1.framesProcessed ≤
        s.framesProcessed + frames.length := by
  intro frames
  induction frames with
  | nil => intro s n h; exact ⟨h, Nat.le_add_right _ _⟩
  | cons f rest ih =>
    intro s n h
    have hfb := frameBody_csvInv m output i f s n h
    have hfp := (frameBody_counts m output i f s).1
    rw [runFrames_cons]
    by_cases hcnt : 20 < (frameBody m output i f s).lowLossCount
    · rw [if_pos hcnt]
      exact ⟨hfb, by simp [List.length_cons]; omega⟩
    · rw [if_neg hcnt]
      have := ih (frameBody m output i f s) n hfb
      exact ⟨this.1, by simp only [List.length_cons]; omega⟩

lemma runIterations_csvInv (m : MLDSP) (render : Nat → Nat → Nat → ℚ)
    (bufferSize : Nat) :
    ∀ (iters : List Nat) (s : OptState) (n : Nat), csvInv n s →
      csvInv n (runIterations m render bufferSize iters s) ∧
      (runIterations m render bufferSize iters s).framesProcessed ≤
        s.framesProcessed + iters.length * bufferSize := by
  intro iters
  induction iters with
  | nil => intro s n h; exact ⟨h, Nat.le_add_right _ _⟩
  | cons i rest ih =>
    intro s n h
    have hrf := runFrames_csvInv m (render i) i (List.range bufferSize) s n h
    rw [List.length_range] at hrf
    have hmul : (i :: rest).length * bufferSize =
        rest.length * bufferSize + bufferSize := by
      simp [Nat.succ_mul]
    rw [runIterations_cons]
    by_cases hearly : (runFrames m (render i) i (List.range bufferSize) s).2 =
        true
    · rw [if_pos hearly]
      exact ⟨hrf.1, by rw [hmul]; omega⟩
    · rw [if_neg hearly]
      have := ih (runFrames m (render i) i (List.range bufferSize) s).1 n hrf.1
      exact ⟨this.1, by rw [hmul]; omega⟩

lemma csvHeader_length : ∀ params : List (String × Parameter),
    (csvHeader params).length = 2 + 2 * params.length := by
  intro params
  simp only [csvHeader, List.length_append, List.length_cons, List.length_nil]
  induction params with
  | nil => rfl
  | cons q rest ih =>
    simp only [List.flatMap_cons, List.length_append, List.length_cons,
      List.length_nil] at ih ⊢
    omega

/-- C7: the CSV header has exactly `2 + 2N` columns for `N` registered
parameters; the run emits exactly one data row per processed frame (so the
row count equals the processed-frame count, bounded by
`kNumIterations * bufferSize`), and every row carries one
`(gradient, value)` pair per parameter. -/
theorem C7_csv_format (m : MLDSP) (render : Nat → Nat → Nat → ℚ)
    (bufferSize : Nat) (addrs : List String) (vals : String → ℚ) :
    (csvHeader (initialState addrs vals).fLearnableParams).length =
      2 + 2 * addrs.length ∧
    (doGradientDescent m render bufferSize
        (initialState addrs vals)).csvRows.length =
      (doGradientDescent m render bufferSize
        (initialState addrs vals)).framesProcessed ∧
    (doGradientDescent m render bufferSize
        (initialState addrs vals)).framesProcessed ≤
      m.kNumIterations * bufferSize ∧
    ((doGradientDescent m render bufferSize
        (initialState addrs vals)).csvRows.all
      fun row => row.pairs.length == addrs.length) = true := by
  have hinit : csvInv addrs.length (initialState addrs vals) :=
    ⟨rfl, by simp [initialState], by simp [initialState]⟩
  have h := runIterations_csvInv m render bufferSize
    ((List.range m.kNumIterations).map (· + 1)) (initialState addrs vals)
    addrs.length hinit
  refine ⟨?_, h.1.1, ?_, ?_⟩
  · rw [csvHeader_length]
    simp [initialState]
  · have := h.2
    simpa [doGradientDescent, initialState] using this
  · exact List.all_eq_true.mpr fun row hrow =>
      beq_iff_eq.mpr (h.1.2.2 row hrow)

/-- The property claimed of `reportState`: for every emitted record index,
the stdout trace line carries the same per-parameter `(gradient, value)`
data as the CSV row. -/
def traceMirrorsCSV (s : OptState) : Prop :=
  ∀ idx : Nat,
    (s.traceLines.get? idx).map
        (fun tl => tl.paramData.map fun q => (q.gradient, q.value)) =
      (s.csvRows.get? idx).map fun row => row.pairs

/-- Concrete optimizer constants for the counterexample run: a single
iteration. -/
def mC8 : MLDSP := ⟨.L2_NORM, 1 / 10, 1 / 100, 1, fun _ => "p"⟩

/-- Counterexample to C8: in a one-frame run whose only frame has loss
`0 ≤ kEpsilon`, the CSV row still carries the parameter's
`(gradient, value)` pair but the trace line carries no per-parameter data
at all. -/
theorem C8_trace_counterexample :
    ¬ traceMirrorsCSV (doGradientDescent mC8 renderZero 1
      (initialState ["/p"] fun _ => (3 : ℚ) / 10)) := by
  intro h
  have h0 := h 0
  have hloss : computeLoss mC8.kLossFunction (renderZero 1) 0 ≤
      mC8.kEpsilon := by
    norm_num [computeLoss, renderZero, mC8]
  have hrange : List.range 1 = [0] := rfl
  have hrun : doGradientDescent mC8 renderZero 1
      (initialState ["/p"] fun _ => (3 : ℚ) / 10) =
      reportState mC8 1 (renderZero 1) 0
        { initialState ["/p"] fun _ => (3 : ℚ) / 10 with
          fLoss := computeLoss mC8.kLossFunction (renderZero 1) 0
          lowLossCount := 1
          framesProcessed := 1 } := by
    show runIterations mC8 renderZero 1 [1] _ = _
    rw [runIterations_cons, hrange, runFrames_cons,
      frameBody_low_eq mC8 (renderZero 1) 1 0 _ hloss]
    norm_num [reportState, runFrames_nil, runIterations_nil, initialState]
  rw [hrun] at h0
  norm_num [reportState, initialState, mC8, computeLoss, renderZero] at h0

/-- The per-parameter trace blocks carry exactly the registry's
`(gradient, value)` pairs. -/
lemma reportTraceParams_pairs (m : MLDSP) (output : Nat → Nat → ℚ)
    (frame : Nat) :
    ∀ (l : List (String × Parameter)) (k : Nat),
      (reportTraceParams m output frame k l).map
          (fun q => (q.gradient, q.value)) =
        l.map fun p => (p.2.gradient, p.2.value) := by
  intro l
  induction l with
  | nil => intro k; rfl
  | cons q rest ih => intro k; simp [reportTraceParams, ih]

/-- C8 (amended): on a high-loss frame the appended trace line carries the
same per-parameter `(gradient, value)` data as the appended CSV row, but on
a frame with loss at most `kEpsilon` the trace line carries no
per-parameter data (while the CSV row still does). -/
theorem C8_trace_mirrors_csv (m : MLDSP) (i : Nat)
    (output : Nat → Nat → ℚ) (frame : Nat) (s : OptState) :
    (m.kEpsilon < s.fLoss →
      ((reportState m i output frame s).traceLines.getLast?).map
          (fun tl => tl.paramData.map fun q => (q.gradient, q.value)) =
        ((reportState m i output frame s).csvRows.getLast?).map
          fun row => row.pairs) ∧
    (s.fLoss ≤ m.kEpsilon →
      ((reportState m i output frame s).traceLines.getLast?).map
          (fun tl => tl.paramData) = some [] ∧
      ((reportState m i output frame s).csvRows.getLast?).map
          (fun row => row.pairs) =
        some (s.fLearnableParams.map fun p =>
          (p.2.gradient, p.2.value))) := by
  constructor
  · intro hgt
    simp only [reportState, List.getLast?_concat, Option.map_some]
    rw [if_pos hgt]
    simp [reportTraceParams_pairs]
  · intro hle
    simp only [reportState, List.getLast?_concat, Option.map_some]
    rw [if_neg (not_lt.mpr hle)]
    simp

/-- Witness for the amended C8 at concrete high-loss and low-loss states. -/
theorem C8_trace_mirrors_csv_witness :
    ((reportState mScenario 1 outZero 0
        { sScenario with fLoss := 1 }).traceLines.getLast?).map
        (fun tl => tl.paramData.map fun q => (q.gradient, q.value)) =
      ((reportState mScenario 1 outZero 0
        { sScenario with fLoss := 1 }).csvRows.getLast?).map
        (fun row => row.pairs) ∧
    ((reportState mScenario 1 outZero 0
        sScenario).traceLines.getLast?).map
        (fun tl => tl.paramData) = some [] := by
  constructor
  · exact (C8_trace_mirrors_csv mScenario 1 outZero 0
      { sScenario with fLoss := 1 }).1 (by norm_num [mScenario])
  · exact ((C8_trace_mirrors_csv mScenario 1 outZero 0 sScenario).2
      (by norm_num [mScenario, sScenario, initialState])).1

end Mldsp
